import Mathlib

/-!
Verification of the `zone_info` library (src/lib.rs, src/kstat.rs).

The library reports the effective CPU count of the current illumos zone:
`zone_cpus()` prefers the administrative CPU cap (the `value` statistic of
the `caps:cpucaps_zone_<id>` kstat, in hundredths of a CPU, divided by 100)
and falls back to the `ncpus` statistic of the `unix:system_misc` kstat.

The kernel statistics facility (libkstat) is modelled by a `Kernel` value:
the chain of kstat records is a list, `kstat_lookup(3KSTAT)` is an arbitrary
positioning function into that list (the facility only promises approximate
positioning; the code re-checks module/name itself), `kstat_open(3KSTAT)`
failure and the OS error it reports are explicit fields, and
`kstat_read(3KSTAT)` failure is a per-record flag.  The `KstatWrapper`
cursor state, its operations, and the two policy loops are translated
directly from src/kstat.rs; machine integers are `Nat` with explicit
`% 2 ^ 32` / `% 2 ^ 64` where the Rust code reads union fields and widens.
`getzoneid(3C)` is an external oracle `Nat → Except Nat Int` indexed by a
call counter that the policy functions thread through, so that "called
exactly once" is provable.
-/

namespace ZoneInfo

/-- One named value inside a kstat record's data payload: the `kstat_named`
name together with the two interpretations of its 16-byte value union that
the code reads (`ui32` and `ul`); reads mask to the field width. -/
structure NamedVal where
  nm : String
  ui32 : Nat
  ul : Nat
deriving DecidableEq, Repr

/-- One `kstat_t` record of the kernel chain: module, name, type tag
(`KSTAT_TYPE_NAMED = 1`), `ks_ndata`, the named-value payload visible after
a successful `kstat_read`, and whether `kstat_read` fails (returns -1) on
this record. -/
structure KstatRec where
  module : String
  nm : String
  ks_type : Nat
  ks_ndata : Nat
  data : List NamedVal
  readFails : Bool
deriving DecidableEq, Repr

/-- The kernel statistics facility as seen through libkstat: the chain of
records (successor = next list index), the positioning behaviour of
`kstat_lookup` (an arbitrary function, since the facility only promises an
approximate starting point), whether `kstat_open` fails, and the OS error
code `kstat_open` would report. -/
structure Kernel where
  chain : List KstatRec
  lookupIx : Option String → Option String → Option Nat
  openFails : Bool
  osErr : Nat

/-- Error type of src/kstat.rs (`KstatError`). -/
inductive KstatError where
  | Open : Nat → KstatError
  | Zoneid : Nat → KstatError
  | Error : String → KstatError
deriving DecidableEq, Repr

/-- Error type of src/lib.rs (`ZoneInfoError`). -/
inductive ZoneInfoError where
  | Kstat : KstatError → ZoneInfoError
  | IOError : Nat → ZoneInfoError
deriving DecidableEq, Repr

/-- Result of an operation that either panics (Rust `expect`) or returns. -/
inductive PanicOr (α : Type) where
  | panic : PanicOr α
  | ok : α → PanicOr α
deriving DecidableEq, Repr

/-- Cursor state of `KstatWrapper` (src/kstat.rs lines 115-119): the current
record as an index into the kernel chain (`ks: Option<NonNull<Kstat>>`) and
the `stepping` flag. -/
structure KstatWrapper where
  ks : Option Nat
  stepping : Bool
deriving DecidableEq, Repr

/-- Result of `kstat_lookup` as an index into the chain: whatever position
the facility picks, restricted to actual chain members (the C function
returns a pointer into the chain or NULL). -/
def Kernel.lookAt (ker : Kernel) (module : Option String) (nm : Option String) : Option Nat :=
  (ker.lookupIx module nm).bind fun i => if i < ker.chain.length then some i else none

/-- `KstatWrapper::open` (src/kstat.rs lines 127-138): a fresh cursor, or
`KstatError::Open` carrying the OS error when `kstat_open` returns NULL. -/
def KstatWrapper.open_ (ker : Kernel) : Except KstatError KstatWrapper :=
  if ker.openFails then Except.error (KstatError.Open ker.osErr)
  else Except.ok { ks := none, stepping := false }

/-- `KstatWrapper::lookup` (src/kstat.rs lines 141-146): store the
`kstat_lookup` result and clear the stepping flag. -/
def KstatWrapper.lookup (ker : Kernel) (_w : KstatWrapper) (module nm : Option String) :
    KstatWrapper :=
  { ks := ker.lookAt module nm, stepping := false }

/-- `KstatWrapper::step` (src/kstat.rs lines 151-166): the first call after a
lookup keeps the looked-up record, later calls follow `ks_next`; returns
false (and resets `stepping`) once there is no current record. -/
def KstatWrapper.step (ker : Kernel) (w : KstatWrapper) : Bool × KstatWrapper :=
  let w1 : KstatWrapper :=
    if w.stepping = false then { w with stepping := true }
    else { w with ks := w.ks.bind fun i =>
      if i + 1 < ker.chain.length then some (i + 1) else none }
  match w1.ks with
  | none => (false, { w1 with stepping := false })
  | some _ => (true, w1)

/-- `KstatWrapper::module` (src/kstat.rs lines 170-173): the module of the
current record; panics (`expect`) when there is no current record. -/
def KstatWrapper.module (ker : Kernel) (w : KstatWrapper) : PanicOr String :=
  match w.ks with
  | none => PanicOr.panic
  | some i =>
    match ker.chain[i]? with
    | none => PanicOr.panic
    | some r => PanicOr.ok r.module

/-- `KstatWrapper::name` (src/kstat.rs lines 177-180): the name of the
current record; panics (`expect`) when there is no current record. -/
def KstatWrapper.name (ker : Kernel) (w : KstatWrapper) : PanicOr String :=
  match w.ks with
  | none => PanicOr.panic
  | some i =>
    match ker.chain[i]? with
    | none => PanicOr.panic
    | some r => PanicOr.ok r.nm

/-- The record-level part of `KstatWrapper::data_value` (src/kstat.rs lines
190-200): fail the refresh, reject non-named or empty records, then
`kstat_data_lookup` scans the payload for the statistic name. -/
def recordValue (r : KstatRec) (statistic : String) : Option NamedVal :=
  if r.readFails then none
  else if r.ks_type ≠ 1 ∨ r.ks_ndata < 1 then none
  else r.data.find? fun nv => nv.nm == statistic

/-- `KstatWrapper::data_value` (src/kstat.rs lines 183-201): `None` when no
record is current, otherwise refresh and look the statistic up. -/
def KstatWrapper.data_value (ker : Kernel) (w : KstatWrapper) (statistic : String) :
    Option NamedVal :=
  match w.ks with
  | none => none
  | some i =>
    match ker.chain[i]? with
    | none => none
    | some r => recordValue r statistic

/-- `KstatWrapper::data_u32` (src/kstat.rs lines 204-207): the `ui32` union
field widened to `u64`. -/
def KstatWrapper.data_u32 (ker : Kernel) (w : KstatWrapper) (statistic : String) : Option Nat :=
  (KstatWrapper.data_value ker w statistic).map fun nv => nv.ui32 % 2 ^ 32

/-- `KstatWrapper::data_ulong` (src/kstat.rs lines 210-213): the `ul` union
field widened to `u64`. -/
def KstatWrapper.data_ulong (ker : Kernel) (w : KstatWrapper) (statistic : String) : Option Nat :=
  (KstatWrapper.data_value ker w statistic).map fun nv => nv.ul % 2 ^ 64

/-- `MODULE_CAPS` constant (src/kstat.rs line 21). -/
def MODULE_CAPS : String := "caps"

/-- `MODULE_UNIX` constant (src/kstat.rs line 22). -/
def MODULE_UNIX : String := "unix"

/-- `NAME_SYSTEM_MISC` constant (src/kstat.rs line 24). -/
def NAME_SYSTEM_MISC : String := "system_misc"

/-- `STAT_VALUE` constant (src/kstat.rs line 26). -/
def STAT_VALUE : String := "value"

/-- `STAT_NCPUS` constant (src/kstat.rs line 27). -/
def STAT_NCPUS : String := "ncpus"

/-- The `while k.step()` loops of `ncpus` and `zone_cpu_cap` (src/kstat.rs
lines 227-235 and 246-254), fuel-indexed: step; skip records whose module or
name differ from the constants; return the first record whose statistic is
present, extracted by `ext` (`data_u32` or `data_ulong`); `none` once `step`
returns false.  The callers pass fuel exceeding the chain length, which
`statLoop_lookup` below proves sufficient. -/
def statLoop (ker : Kernel) (module nm statistic : String) (ext : NamedVal → Nat) :
    Nat → KstatWrapper → Option Nat
  | 0, _ => none
  | fuel + 1, w =>
    let br := KstatWrapper.step ker w
    if br.1 then
      if KstatWrapper.module ker br.2 ≠ PanicOr.ok module ∨
          KstatWrapper.name ker br.2 ≠ PanicOr.ok nm then
        statLoop ker module nm statistic ext fuel br.2
      else
        match (KstatWrapper.data_value ker br.2 statistic).map ext with
        | some v => some v
        | none => statLoop ker module nm statistic ext fuel br.2
    else none

/-- `ncpus` (src/kstat.rs lines 223-238): open, look up `unix:system_misc`,
scan for the `ncpus` statistic as a u32, or fail with the
"cpu count kstat not found" error. -/
def ncpus (ker : Kernel) : Except KstatError Nat :=
  match KstatWrapper.open_ ker with
  | Except.error e => Except.error e
  | Except.ok k =>
    let k1 := KstatWrapper.lookup ker k (some MODULE_UNIX) (some NAME_SYSTEM_MISC)
    match statLoop ker MODULE_UNIX NAME_SYSTEM_MISC STAT_NCPUS (fun nv => nv.ui32 % 2 ^ 32)
        (ker.chain.length + 1) k1 with
    | some n => Except.ok n
    | none => Except.error (KstatError.Error "cpu count kstat not found")

/-- `zone_cpu_cap` (src/kstat.rs lines 240-257): open, resolve the zone id
through the oracle `zsrc` (one call, at counter position `n0`; the returned
counter counts the calls made), look up `caps:cpucaps_zone_<id>`, and scan
for the `value` statistic as a ulong; no match is `Ok(None)`. -/
def zone_cpu_cap (ker : Kernel) (zsrc : Nat → Except Nat Int) (n0 : Nat) :
    Except KstatError (Option Nat) × Nat :=
  match KstatWrapper.open_ ker with
  | Except.error e => (Except.error e, n0)
  | Except.ok k =>
    match zsrc n0 with
    | Except.error e => (Except.error (KstatError.Zoneid e), n0 + 1)
    | Except.ok zoneid =>
      let capName := "cpucaps_zone_" ++ toString zoneid
      let k1 := KstatWrapper.lookup ker k (some MODULE_CAPS) (some capName)
      (Except.ok (statLoop ker MODULE_CAPS capName STAT_VALUE (fun nv => nv.ul % 2 ^ 64)
        (ker.chain.length + 1) k1), n0 + 1)

/-- `zone_cpus` (src/lib.rs lines 15-21): a cap, divided by 100, wins;
otherwise fall back to `ncpus`; `KstatError`s are wrapped into
`ZoneInfoError::Kstat` by the `?` / `map_err` conversions. -/
def zone_cpus (ker : Kernel) (zsrc : Nat → Except Nat Int) (n0 : Nat) :
    Except ZoneInfoError Nat × Nat :=
  match zone_cpu_cap ker zsrc n0 with
  | (Except.error e, n) => (Except.error (ZoneInfoError.Kstat e), n)
  | (Except.ok (some cap), n) => (Except.ok (cap / 100), n)
  | (Except.ok none, n) =>
    match ncpus ker with
    | Except.ok v => (Except.ok v, n)
    | Except.error e => (Except.error (ZoneInfoError.Kstat e), n)

/-- Specification-level description of the scan loops: walk a record list in
order and return the statistic (extracted by `ext`) of the first record
whose module and name both match exactly and whose payload carries the
statistic. -/
def scanFirst (module nm statistic : String) (ext : NamedVal → Nat) :
    List KstatRec → Option Nat
  | [] => none
  | r :: rest =>
    if r.module = module ∧ r.nm = nm then
      match (recordValue r statistic).map ext with
      | some v => some v
      | none => scanFirst module nm statistic ext rest
    else scanFirst module nm statistic ext rest

/-- The cursor invariant: whenever the stepping flag is set a current record
exists. -/
def Inv (w : KstatWrapper) : Prop := w.stepping = true → w.ks.isSome = true

deriving instance DecidableEq for Except

/-- A `ncpus = 8` named value. -/
def nvNcpus8 : NamedVal := { nm := "ncpus", ui32 := 8, ul := 8 }

/-- The `unix:system_misc` record of the example chains, carrying
`ncpus = 8`. -/
def recUnix8 : KstatRec :=
  { module := "unix", nm := "system_misc", ks_type := 1, ks_ndata := 1,
    data := [nvNcpus8], readFails := false }

/-- A `value = 450` named value (a cap of 4.5 CPUs). -/
def nvValue450 : NamedVal := { nm := "value", ui32 := 450, ul := 450 }

/-- A `caps:cpucaps_zone_7` record carrying `value = 450`. -/
def recCaps450 : KstatRec :=
  { module := "caps", nm := "cpucaps_zone_7", ks_type := 1, ks_ndata := 1,
    data := [nvValue450], readFails := false }

/-- A `caps:cpucaps_zone_7` record carrying `value = 350`. -/
def recCaps350 : KstatRec :=
  { module := "caps", nm := "cpucaps_zone_7", ks_type := 1, ks_ndata := 1,
    data := [{ nm := "value", ui32 := 350, ul := 350 }], readFails := false }

/-- A `caps:cpucaps_zone_7` record carrying `value = 50` (a cap below one
whole CPU). -/
def recCaps50 : KstatRec :=
  { module := "caps", nm := "cpucaps_zone_7", ks_type := 1, ks_ndata := 1,
    data := [{ nm := "value", ui32 := 50, ul := 50 }], readFails := false }

/-- Example kernel with only the `unix:system_misc` chain entry. -/
def kerA : Kernel :=
  { chain := [recUnix8], lookupIx := fun _ _ => some 0, openFails := false, osErr := 0 }

/-- Example kernel with a zone-7 cap of 450 and the `unix:system_misc`
entry; lookups by name land on the obvious record. -/
def kerB : Kernel :=
  { chain := [recCaps450, recUnix8],
    lookupIx := fun _ nm => if nm = some "cpucaps_zone_7" then some 0 else some 1,
    openFails := false, osErr := 0 }

/-- Example kernel with a zone-7 cap of 350 and the `unix:system_misc`
entry. -/
def kerB350 : Kernel :=
  { chain := [recCaps350, recUnix8],
    lookupIx := fun _ nm => if nm = some "cpucaps_zone_7" then some 0 else some 1,
    openFails := false, osErr := 0 }

/-- Example kernel with a zone-7 cap of 50 and the `unix:system_misc`
entry. -/
def kerCap50 : Kernel :=
  { chain := [recCaps50, recUnix8],
    lookupIx := fun _ nm => if nm = some "cpucaps_zone_7" then some 0 else some 1,
    openFails := false, osErr := 0 }

/-- Example kernel whose `kstat_open` fails with OS error 5. -/
def kerD : Kernel :=
  { chain := [recUnix8], lookupIx := fun _ _ => some 0, openFails := true, osErr := 5 }

/-- A zone-identity oracle that always resolves to zone 7. -/
def zsrc7 : Nat → Except Nat Int := fun _ => Except.ok 7

/-- A zone-identity oracle that always fails with OS error 13. -/
def zsrcFail : Nat → Except Nat Int := fun _ => Except.error 13

/-- Stepping with no current record returns false and resets the cursor. -/
theorem step_none (ker : Kernel) (b : Bool) :
    KstatWrapper.step ker { ks := none, stepping := b } =
      (false, { ks := none, stepping := false }) := by
  cases b <;> rfl

/-- The first step after a lookup that found a record keeps that record. -/
theorem step_first (ker : Kernel) (i : Nat) :
    KstatWrapper.step ker { ks := some i, stepping := false } =
      (true, { ks := some i, stepping := true }) := rfl

/-- A subsequent step follows `ks_next`: the next chain index, or exhaustion. -/
theorem step_next (ker : Kernel) (i : Nat) :
    KstatWrapper.step ker { ks := some i, stepping := true } =
      if i + 1 < ker.chain.length then (true, { ks := some (i + 1), stepping := true })
      else (false, { ks := none, stepping := false }) := by
  by_cases h : i + 1 < ker.chain.length <;>
    simp [KstatWrapper.step, h]

/-- On a cursor positioned at a valid index, `module` returns the record's
module. -/
theorem module_at (ker : Kernel) (i : Nat) (b : Bool) (r : KstatRec)
    (h : ker.chain[i]? = some r) :
    KstatWrapper.module ker { ks := some i, stepping := b } = PanicOr.ok r.module := by
  simp [KstatWrapper.module, h]

/-- On a cursor positioned at a valid index, `name` returns the record's
name. -/
theorem name_at (ker : Kernel) (i : Nat) (b : Bool) (r : KstatRec)
    (h : ker.chain[i]? = some r) :
    KstatWrapper.name ker { ks := some i, stepping := b } = PanicOr.ok r.nm := by
  simp [KstatWrapper.name, h]

/-- On a cursor positioned at a valid index, `data_value` reads the record. -/
theorem data_value_at (ker : Kernel) (i : Nat) (b : Bool) (r : KstatRec)
    (h : ker.chain[i]? = some r) (statistic : String) :
    KstatWrapper.data_value ker { ks := some i, stepping := b } statistic =
      recordValue r statistic := by
  simp [KstatWrapper.data_value, h]

/-- One loop iteration whose `step` succeeds processes the record `step`
landed on and otherwise continues from the post-step cursor. -/
theorem statLoop_step_true (ker : Kernel) (module nm statistic : String) (ext : NamedVal → Nat)
    (fuel : Nat) (w w' : KstatWrapper) (j : Nat) (r : KstatRec)
    (hs : KstatWrapper.step ker w = (true, w')) (hk : w'.ks = some j)
    (hr : ker.chain[j]? = some r) :
    statLoop ker module nm statistic ext (fuel + 1) w =
      if r.module = module ∧ r.nm = nm then
        match (recordValue r statistic).map ext with
        | some v => some v
        | none => statLoop ker module nm statistic ext fuel w'
      else statLoop ker module nm statistic ext fuel w' := by
  obtain ⟨ks', st'⟩ := w'
  cases hk
  have hm := module_at ker j st' r hr
  have hn := name_at ker j st' r hr
  have hd := data_value_at ker j st' r hr statistic
  simp only [statLoop, hs, hm, hn, hd]
  by_cases h1 : r.module = module
  · by_cases h2 : r.nm = nm
    · simp [h1, h2]
    · simp [h1, h2]
  · simp [h1]

/-- From a mid-iteration cursor at index `i`, the loop (given enough fuel)
computes the first-match scan of the chain records after `i`. -/
theorem statLoop_adv (ker : Kernel) (module nm statistic : String) (ext : NamedVal → Nat) :
    ∀ fuel i, ker.chain.length ≤ i + 1 + fuel →
      statLoop ker module nm statistic ext fuel { ks := some i, stepping := true } =
        scanFirst module nm statistic ext (ker.chain.drop (i + 1)) := by
  intro fuel
  induction fuel with
  | zero =>
    intro i h
    rw [List.drop_eq_nil_of_le (by omega)]
    rfl
  | succ fuel ih =>
    intro i h
    by_cases hlt : i + 1 < ker.chain.length
    · have hstep : KstatWrapper.step ker { ks := some i, stepping := true } =
          (true, { ks := some (i + 1), stepping := true }) := by
        rw [step_next, if_pos hlt]
      rw [statLoop_step_true ker module nm statistic ext fuel _ _ (i + 1) (ker.chain[i + 1])
        hstep rfl (List.getElem?_eq_getElem hlt)]
      rw [ih (i + 1) (by omega)]
      rw [List.drop_eq_getElem_cons hlt]
      by_cases h1 : (ker.chain[i + 1]).module = module ∧ (ker.chain[i + 1]).nm = nm
      · simp [scanFirst, h1]
      · simp [scanFirst, h1]
    · have hstep : KstatWrapper.step ker { ks := some i, stepping := true } =
          (false, { ks := none, stepping := false }) := by
        rw [step_next, if_neg hlt]
      rw [List.drop_eq_nil_of_le (by omega)]
      simp [statLoop, hstep, scanFirst]

/-- From a just-looked-up cursor at a valid index `i`, the loop (given enough
fuel) computes the first-match scan of the chain records from `i` on. -/
theorem statLoop_start (ker : Kernel) (module nm statistic : String) (ext : NamedVal → Nat)
    (fuel i : Nat) (hi : i < ker.chain.length) (hfuel : ker.chain.length ≤ i + 1 + fuel) :
    statLoop ker module nm statistic ext (fuel + 1) { ks := some i, stepping := false } =
      scanFirst module nm statistic ext (ker.chain.drop i) := by
  rw [statLoop_step_true ker module nm statistic ext fuel _ _ i (ker.chain[i])
    (step_first ker i) rfl (List.getElem?_eq_getElem hi)]
  rw [statLoop_adv ker module nm statistic ext fuel i hfuel]
  rw [List.drop_eq_getElem_cons hi]
  by_cases h1 : (ker.chain[i]).module = module ∧ (ker.chain[i]).nm = nm
  · simp [scanFirst, h1]
  · simp [scanFirst, h1]

/-- A `kstat_lookup` result restricted to the chain is a valid chain index. -/
theorem Kernel.lookAt_lt (ker : Kernel) (mo no : Option String) (i : Nat)
    (h : ker.lookAt mo no = some i) : i < ker.chain.length := by
  unfold Kernel.lookAt at h
  cases hx : ker.lookupIx mo no with
  | none => rw [hx] at h; simp at h
  | some j =>
    rw [hx] at h
    simp only [Option.some_bind] at h
    by_cases hj : j < ker.chain.length
    · rw [if_pos hj] at h
      cases h
      exact hj
    · rw [if_neg hj] at h
      cases h

/-- The loops as run by `ncpus` and `zone_cpu_cap` — from the lookup result,
with fuel one more than the chain length — compute the first-match scan of
the chain suffix the lookup starts at (and find nothing when the lookup
found nothing). -/
theorem statLoop_from (ker : Kernel) (module nm statistic : String) (ext : NamedVal → Nat)
    (s0 : Option Nat) (hv : ∀ i, s0 = some i → i < ker.chain.length) :
    statLoop ker module nm statistic ext (ker.chain.length + 1) { ks := s0, stepping := false } =
      s0.bind fun i => scanFirst module nm statistic ext (ker.chain.drop i) := by
  cases s0 with
  | none => simp [statLoop, step_none]
  | some i =>
    rw [Option.some_bind]
    exact statLoop_start ker module nm statistic ext ker.chain.length i (hv i rfl) (by omega)

/-- C3: `ncpus()` opens a handle, positions the cursor at the literal
`unix` / `system_misc` constants, steps through the chain entries from
wherever the lookup landed, filters them by exact module and name equality,
returns the first entry's u32 `ncpus` statistic that is present, and fails
with the "cpu count kstat not found" error when the scan is exhausted (also
when the lookup itself found nothing). -/
theorem ncpus_spec (ker : Kernel) (h : ker.openFails = false) :
    ncpus ker =
      match (ker.lookAt (some MODULE_UNIX) (some NAME_SYSTEM_MISC)).bind
          fun i => scanFirst MODULE_UNIX NAME_SYSTEM_MISC STAT_NCPUS
            (fun nv => nv.ui32 % 2 ^ 32) (ker.chain.drop i) with
      | some n => Except.ok n
      | none => Except.error (KstatError.Error "cpu count kstat not found") := by
  have ho : KstatWrapper.open_ ker = Except.ok { ks := none, stepping := false } := by
    simp [KstatWrapper.open_, h]
  unfold ncpus
  rw [ho, ← statLoop_from ker MODULE_UNIX NAME_SYSTEM_MISC STAT_NCPUS
    (fun nv => nv.ui32 % 2 ^ 32) (ker.lookAt (some MODULE_UNIX) (some NAME_SYSTEM_MISC))
    (fun i hi => Kernel.lookAt_lt ker _ _ i hi)]
  rfl

/-- C3 witness: on a one-record chain carrying `ncpus = 8` the scan finds 8
(end-to-end scenario A). -/
theorem ncpus_spec_witness : kerA.openFails = false ∧ ncpus kerA = Except.ok 8 :=
  ⟨rfl, by rw [ncpus_spec kerA rfl]; decide⟩

/-- C2: on a kernel whose statistics facility opens, `zone_cpu_cap()`
resolves the zone identity exactly once (the oracle counter advances from
`n0` to `n0 + 1` in both branches), wraps an identity-resolution failure as
`KstatError::Zoneid` verbatim, and otherwise positions the cursor at
`caps` / `"cpucaps_zone_<id>"`, scans the chain entries from wherever the
lookup landed filtering by exact module and name equality, and returns `Ok`
of the first matching entry's raw ulong `value` statistic — `Ok None`, not
an error, when no matching entry carries the statistic. -/
theorem zone_cpu_cap_spec (ker : Kernel) (zsrc : Nat → Except Nat Int) (n0 : Nat)
    (h : ker.openFails = false) :
    (∀ e, zsrc n0 = Except.error e →
      zone_cpu_cap ker zsrc n0 = (Except.error (KstatError.Zoneid e), n0 + 1)) ∧
    (∀ zoneid, zsrc n0 = Except.ok zoneid →
      zone_cpu_cap ker zsrc n0 =
        (Except.ok ((ker.lookAt (some MODULE_CAPS)
            (some ("cpucaps_zone_" ++ toString zoneid))).bind
          fun i => scanFirst MODULE_CAPS ("cpucaps_zone_" ++ toString zoneid) STAT_VALUE
            (fun nv => nv.ul % 2 ^ 64) (ker.chain.drop i)), n0 + 1)) := by
  have ho : KstatWrapper.open_ ker = Except.ok { ks := none, stepping := false } := by
    simp [KstatWrapper.open_, h]
  constructor
  · intro e hz
    unfold zone_cpu_cap
    rw [ho, hz]
  · intro zoneid hz
    unfold zone_cpu_cap
    rw [ho, hz, ← statLoop_from ker MODULE_CAPS ("cpucaps_zone_" ++ toString zoneid) STAT_VALUE
      (fun nv => nv.ul % 2 ^ 64)
      (ker.lookAt (some MODULE_CAPS) (some ("cpucaps_zone_" ++ toString zoneid)))
      (fun i hi => Kernel.lookAt_lt ker _ _ i hi)]
    rfl

/-- C2 witness: zone 7 with a `cpucaps_zone_7` record carrying `value = 450`
yields `Ok (Some 450)` after exactly one oracle call, and a failing oracle
yields the `Zoneid` error (end-to-end scenario B and the failure branch). -/
theorem zone_cpu_cap_spec_witness :
    zone_cpu_cap kerB zsrcFail 0 = (Except.error (KstatError.Zoneid 13), 1) ∧
    zone_cpu_cap kerB zsrc7 0 = (Except.ok (some 450), 1) :=
  ⟨(zone_cpu_cap_spec kerB zsrcFail 0 rfl).1 13 rfl,
   by rw [(zone_cpu_cap_spec kerB zsrc7 0 rfl).2 7 rfl]; decide⟩

/-- C1: `zone_cpus()` maps a present cap `c` to `c / 100` with truncating
natural division, maps an absent cap to exactly the `ncpus()` result, and
propagates the `KstatError` of either path unchanged inside the
`ZoneInfoError::Kstat` wrapper. -/
theorem zone_cpus_policy (ker : Kernel) (zsrc : Nat → Except Nat Int) (n0 n : Nat) :
    (∀ e, zone_cpu_cap ker zsrc n0 = (Except.error e, n) →
      zone_cpus ker zsrc n0 = (Except.error (ZoneInfoError.Kstat e), n)) ∧
    (∀ c, zone_cpu_cap ker zsrc n0 = (Except.ok (some c), n) →
      zone_cpus ker zsrc n0 = (Except.ok (c / 100), n)) ∧
    (zone_cpu_cap ker zsrc n0 = (Except.ok none, n) →
      (∀ v, ncpus ker = Except.ok v → zone_cpus ker zsrc n0 = (Except.ok v, n)) ∧
      (∀ e, ncpus ker = Except.error e →
        zone_cpus ker zsrc n0 = (Except.error (ZoneInfoError.Kstat e), n))) := by
  refine ⟨fun e hc => ?_, fun c hc => ?_, fun hc => ⟨fun v hn => ?_, fun e hn => ?_⟩⟩ <;>
    simp only [zone_cpus, hc]
  · rw [hn]
  · rw [hn]

/-- C1 witness: a cap of 350 yields `350 / 100 = 3` effective CPUs. -/
theorem zone_cpus_policy_witness :
    zone_cpu_cap kerB350 zsrc7 0 = (Except.ok (some 350), 1) ∧
    zone_cpus kerB350 zsrc7 0 = (Except.ok (350 / 100), 1) ∧ 350 / 100 = 3 :=
  ⟨by decide, (zone_cpus_policy kerB350 zsrc7 0 1).2.1 350 (by decide), by decide⟩

/-- C4: when the statistics facility fails to open, `KstatWrapper::open`,
`ncpus`, `zone_cpu_cap` and `zone_cpus` all surface `KstatError::Open`
carrying the OS error unchanged (wrapped in `ZoneInfoError::Kstat` at the
public boundary); the zone-identity oracle is never consulted (the counter
stays `n0`) and no fallback to the raw CPU count happens. -/
theorem open_failure_propagation (ker : Kernel) (zsrc : Nat → Except Nat Int) (n0 : Nat)
    (h : ker.openFails = true) :
    KstatWrapper.open_ ker = Except.error (KstatError.Open ker.osErr) ∧
    ncpus ker = Except.error (KstatError.Open ker.osErr) ∧
    zone_cpu_cap ker zsrc n0 = (Except.error (KstatError.Open ker.osErr), n0) ∧
    zone_cpus ker zsrc n0 =
      (Except.error (ZoneInfoError.Kstat (KstatError.Open ker.osErr)), n0) := by
  have ho : KstatWrapper.open_ ker = Except.error (KstatError.Open ker.osErr) := by
    simp [KstatWrapper.open_, h]
  have hcap : zone_cpu_cap ker zsrc n0 = (Except.error (KstatError.Open ker.osErr), n0) := by
    unfold zone_cpu_cap
    rw [ho]
  refine ⟨ho, ?_, hcap, ?_⟩
  · unfold ncpus
    rw [ho]
  · unfold zone_cpus
    rw [hcap]

/-- C4 witness: on a kernel whose open fails with OS error 5 every operation
reports `Open 5` (end-to-end scenario D). -/
theorem open_failure_propagation_witness :
    kerD.openFails = true ∧
    zone_cpus kerD zsrc7 0 =
      (Except.error (ZoneInfoError.Kstat (KstatError.Open 5)), 0) :=
  ⟨rfl, (open_failure_propagation kerD zsrc7 0 rfl).2.2.2⟩

/-- C5: on a cursor whose current record is `r`, `data_u32` and `data_ulong`
return `none` — they cannot raise an error, being `Option`-valued — whenever
the refresh fails, the type tag is not named-value, the record holds zero
values, or the statistic is absent from the payload; when a matching named
value exists they return its union field widened to an unsigned 64-bit
range. -/
theorem data_accessor_absence (ker : Kernel) (w : KstatWrapper) (statistic : String)
    (i : Nat) (r : KstatRec) (hks : w.ks = some i) (hr : ker.chain[i]? = some r) :
    (r.readFails = true →
      KstatWrapper.data_u32 ker w statistic = none ∧
      KstatWrapper.data_ulong ker w statistic = none) ∧
    (r.ks_type ≠ 1 →
      KstatWrapper.data_u32 ker w statistic = none ∧
      KstatWrapper.data_ulong ker w statistic = none) ∧
    (r.ks_ndata < 1 →
      KstatWrapper.data_u32 ker w statistic = none ∧
      KstatWrapper.data_ulong ker w statistic = none) ∧
    (r.data.find? (fun nv => nv.nm == statistic) = none →
      KstatWrapper.data_u32 ker w statistic = none ∧
      KstatWrapper.data_ulong ker w statistic = none) ∧
    (∀ nv, r.readFails = false → r.ks_type = 1 → 1 ≤ r.ks_ndata →
      r.data.find? (fun nv => nv.nm == statistic) = some nv →
      KstatWrapper.data_u32 ker w statistic = some (nv.ui32 % 2 ^ 32) ∧
      KstatWrapper.data_ulong ker w statistic = some (nv.ul % 2 ^ 64) ∧
      nv.ui32 % 2 ^ 32 < 2 ^ 64 ∧ nv.ul % 2 ^ 64 < 2 ^ 64) := by
  have hdv : KstatWrapper.data_value ker w statistic = recordValue r statistic := by
    obtain ⟨ks, st⟩ := w
    simp only at hks
    subst hks
    exact data_value_at ker i st r hr statistic
  refine ⟨fun h1 => ?_, fun h1 => ?_, fun h1 => ?_, fun h1 => ?_,
    fun nv h1 h2 h3 h4 => ?_⟩ <;>
    simp only [KstatWrapper.data_u32, KstatWrapper.data_ulong, hdv]
  · simp [recordValue, h1]
  · by_cases hrf : r.readFails <;> simp [recordValue, hrf, h1]
  · by_cases hrf : r.readFails <;> by_cases ht : r.ks_type = 1 <;>
      simp [recordValue, hrf, ht, h1]
  · by_cases hrf : r.readFails <;> by_cases ht : r.ks_type = 1 <;>
      by_cases hn : r.ks_ndata < 1 <;> simp [recordValue, hrf, ht, hn, h1]
  · have hcond : ¬(r.ks_type ≠ 1 ∨ r.ks_ndata < 1) := by omega
    simp only [recordValue, h1, if_false, Bool.false_eq_true, if_neg hcond, h4, Option.map_some]
    refine ⟨rfl, rfl, ?_, ?_⟩
    · exact Nat.lt_of_lt_of_le (Nat.mod_lt _ (by norm_num)) (by norm_num)
    · exact Nat.mod_lt _ (by norm_num)

/-- C5 witness: on the zone-7 cap record, the `value` statistic reads back
450 and a missing statistic name reads back `none`. -/
theorem data_accessor_absence_witness :
    KstatWrapper.data_ulong kerB { ks := some 0, stepping := true } "value" = some 450 ∧
    KstatWrapper.data_ulong kerB { ks := some 0, stepping := true } "nonexistent" = none :=
  ⟨((data_accessor_absence kerB { ks := some 0, stepping := true } "value" 0 recCaps450
      rfl rfl).2.2.2.2 nvValue450 rfl rfl (by decide) rfl).2.1,
   ((data_accessor_absence kerB { ks := some 0, stepping := true } "nonexistent" 0 recCaps450
      rfl rfl).2.2.2.1 rfl).2⟩

/-- C6: the cursor protocol — the first `step` after a `lookup` makes the
looked-up record (if any) current and returns whether one exists; a
subsequent `step` advances to the next chain record or exhausts; stepping
with no current record returns false and leaves the just-reset state, so
once `step` has returned false every further `step` without an intervening
`lookup` also returns false. -/
theorem step_protocol (ker : Kernel) (w : KstatWrapper) (mo no : Option String) (i : Nat) :
    (KstatWrapper.step ker (KstatWrapper.lookup ker w mo no) =
      ((ker.lookAt mo no).isSome,
        { ks := ker.lookAt mo no, stepping := (ker.lookAt mo no).isSome })) ∧
    (KstatWrapper.step ker { ks := some i, stepping := true } =
      if i + 1 < ker.chain.length then (true, { ks := some (i + 1), stepping := true })
      else (false, { ks := none, stepping := false })) ∧
    (∀ b, KstatWrapper.step ker { ks := none, stepping := b } =
      (false, { ks := none, stepping := false })) ∧
    ((KstatWrapper.step ker w).1 = false →
      (KstatWrapper.step ker w).2 = { ks := none, stepping := false } ∧
      KstatWrapper.step ker (KstatWrapper.step ker w).2 =
        (false, { ks := none, stepping := false })) := by
  refine ⟨?_, step_next ker i, step_none ker, fun hf => ?_⟩
  · show KstatWrapper.step ker { ks := ker.lookAt mo no, stepping := false } = _
    cases hx : ker.lookAt mo no with
    | none => rw [step_none]; rfl
    | some j => rw [step_first]; rfl
  · obtain ⟨ks, st⟩ := w
    cases ks with
    | none =>
      rw [step_none]
      exact ⟨rfl, step_none ker false⟩
    | some j =>
      cases st with
      | false =>
        rw [step_first] at hf
        cases hf
      | true =>
        rw [step_next] at hf ⊢
        by_cases hj : j + 1 < ker.chain.length
        · rw [if_pos hj] at hf
          cases hf
        · rw [if_neg hj]
          exact ⟨rfl, step_none ker false⟩

/-- C6 witness: on the one-record chain, a subsequent step from index 0
exhausts the chain, leaves the reset state, and stays false. -/
theorem step_protocol_witness :
    (KstatWrapper.step kerA { ks := some 0, stepping := true }).2 =
      { ks := none, stepping := false } ∧
    KstatWrapper.step kerA (KstatWrapper.step kerA { ks := some 0, stepping := true }).2 =
      (false, { ks := none, stepping := false }) :=
  (step_protocol kerA { ks := some 0, stepping := true } none none 0).2.2.2 (by decide)

/-- C7 counterexample: immediately after a `lookup` that found a record — a
state in which no `step()` call has returned true (the stepping flag is
still false and no step has been made) — `module()` does not panic: it
returns the looked-up record's module. -/
theorem module_after_lookup_returns_data :
    (KstatWrapper.lookup kerB { ks := none, stepping := false } (some MODULE_CAPS)
      (some "cpucaps_zone_7")).stepping = false ∧
    KstatWrapper.module kerB (KstatWrapper.lookup kerB { ks := none, stepping := false }
      (some MODULE_CAPS) (some "cpucaps_zone_7")) = PanicOr.ok "caps" := by
  decide

/-- C7 amended: `module()` and `name()` fault with the assertion-style panic
exactly when no current record exists — before any lookup, after a lookup
that found nothing, or after `step()` has returned false; after a lookup
that found a record they return that record's fields without faulting even
though no `step()` has returned true. -/
theorem module_panic_iff (ker : Kernel) (w : KstatWrapper)
    (hv : ∀ i, w.ks = some i → i < ker.chain.length) :
    (KstatWrapper.module ker w = PanicOr.panic ↔ w.ks = none) ∧
    (KstatWrapper.name ker w = PanicOr.panic ↔ w.ks = none) := by
  obtain ⟨ks, st⟩ := w
  cases ks with
  | none => simp [KstatWrapper.module, KstatWrapper.name]
  | some i =>
    have hi : i < ker.chain.length := hv i rfl
    have hr : ker.chain[i]? = some (ker.chain[i]) := List.getElem?_eq_getElem hi
    simp [KstatWrapper.module, KstatWrapper.name, hr]

/-- C7 amended witness: with no current record the accessors do panic. -/
theorem module_panic_iff_witness :
    KstatWrapper.module kerB { ks := none, stepping := false } = PanicOr.panic :=
  ((module_panic_iff kerB { ks := none, stepping := false }
    (fun _i h => Option.noConfusion h)).1).mpr rfl

/-- C8 counterexample: with a configured cap of 50 (half a CPU),
`zone_cpus()` succeeds with 0 — a successful result that is not a positive
integer. -/
theorem zone_cpus_returns_zero :
    zone_cpus kerCap50 zsrc7 0 = (Except.ok 0, 1) ∧ ¬(1 ≤ (0 : Nat)) := by
  decide

/-- C8 amended: a successful `zone_cpus()` result obtained from a cap `c` is
`c / 100`, which is positive whenever the cap is at least 100 (one full
CPU); a cap below 100 yields a successful result of 0. -/
theorem zone_cpus_pos_of_cap (ker : Kernel) (zsrc : Nat → Except Nat Int) (n0 n c : Nat)
    (hc : zone_cpu_cap ker zsrc n0 = (Except.ok (some c), n)) (h100 : 100 ≤ c) :
    zone_cpus ker zsrc n0 = (Except.ok (c / 100), n) ∧ 1 ≤ c / 100 := by
  refine ⟨?_, ?_⟩
  · simp only [zone_cpus, hc]
  · have h0 : (0 : Nat) < 100 := by norm_num
    exact (Nat.le_div_iff_mul_le h0).mpr (by omega)

/-- C8 amended witness: a cap of 450 gives the positive count 4. -/
theorem zone_cpus_pos_of_cap_witness :
    zone_cpus kerB zsrc7 0 = (Except.ok (450 / 100), 1) ∧ 1 ≤ 450 / 100 :=
  zone_cpus_pos_of_cap kerB zsrc7 0 1 450 (by decide) (by norm_num)

/-- C9: on a cursor with no current record the typed accessors return `none`
as an ordinary value — independently of the kernel contents, so no record is
consulted and no refresh happens — while `module()` and `name()` treat the
same state as a contract violation and panic. -/
theorem unpositioned_accessors (ker : Kernel) (w : KstatWrapper) (statistic : String)
    (h : w.ks = none) :
    KstatWrapper.data_value ker w statistic = none ∧
    KstatWrapper.data_u32 ker w statistic = none ∧
    KstatWrapper.data_ulong ker w statistic = none ∧
    KstatWrapper.module ker w = PanicOr.panic ∧
    KstatWrapper.name ker w = PanicOr.panic := by
  obtain ⟨ks, st⟩ := w
  simp only at h
  subst h
  refine ⟨rfl, rfl, rfl, rfl, rfl⟩

/-- C9 witness: the unpositioned cursor reads `none` for `ncpus`. -/
theorem unpositioned_accessors_witness :
    KstatWrapper.data_u32 kerA { ks := none, stepping := false } "ncpus" = none :=
  (unpositioned_accessors kerA { ks := none, stepping := false } "ncpus" rfl).2.1

/-- C10: the cursor invariant (a set stepping flag implies a current record)
holds after `open`, after every `lookup` and after every `step`; moreover
`step` returns true exactly when a current record exists in the state it
leaves behind, and whenever it returns false the state it leaves is exactly
the just-reset state. -/
theorem cursor_invariant (ker : Kernel) (w w0 : KstatWrapper) (mo no : Option String) :
    (KstatWrapper.open_ ker = Except.ok w0 → Inv w0) ∧
    Inv (KstatWrapper.lookup ker w mo no) ∧
    Inv (KstatWrapper.step ker w).2 ∧
    ((KstatWrapper.step ker w).1 = true ↔ ((KstatWrapper.step ker w).2).ks.isSome = true) ∧
    ((KstatWrapper.step ker w).1 = false →
      (KstatWrapper.step ker w).2 = { ks := none, stepping := false }) := by
  have hstep : Inv (KstatWrapper.step ker w).2 ∧
      ((KstatWrapper.step ker w).1 = true ↔
        ((KstatWrapper.step ker w).2).ks.isSome = true) ∧
      ((KstatWrapper.step ker w).1 = false →
        (KstatWrapper.step ker w).2 = { ks := none, stepping := false }) := by
    obtain ⟨ks, st⟩ := w
    cases ks with
    | none => rw [step_none]; simp [Inv]
    | some j =>
      cases st with
      | false => rw [step_first]; simp [Inv]
      | true =>
        rw [step_next]
        by_cases hj : j + 1 < ker.chain.length
        · rw [if_pos hj]; simp [Inv]
        · rw [if_neg hj]; simp [Inv]
  refine ⟨fun ho => ?_, ?_, hstep⟩
  · unfold KstatWrapper.open_ at ho
    split at ho
    · cases ho
    · cases ho
      intro hs
      cases hs
  · intro hs
    cases hs

/-- C10 witness: the invariant after opening, and the reset state after an
exhausting step, on the one-record example kernel. -/
theorem cursor_invariant_witness :
    Inv { ks := none, stepping := false } ∧
    (KstatWrapper.step kerA { ks := some 0, stepping := true }).2 =
      { ks := none, stepping := false } :=
  ⟨(cursor_invariant kerA { ks := none, stepping := false } { ks := none, stepping := false }
      none none).1 rfl,
   (cursor_invariant kerA { ks := some 0, stepping := true } { ks := none, stepping := false }
      none none).2.2.2.2 (by decide)⟩

end ZoneInfo
